import Mathlib

/-!
Verification of the scene resource builder, pipeline registry and voxel
mip-chain scheduler of the wgpu-vxgi renderer, against a shallow embedding
of `src/gltf_loader.rs`, `src/shader.rs` and `src/voxel_texture.rs`.

Machine integers of the source are modelled as `Nat` (all quantities are
sizes, counts and indices that the source never overflows); floating point
transform matrices are modelled by an abstract carrier `M` with an
uninterpreted multiplication `mul`, which is faithful because the source
only ever multiplies matrices and never relies on algebraic laws.
GPU objects (buffers, pipelines, bind groups) are modelled as records
carrying the data the source passes to their descriptors, plus a handle
drawn from an allocation counter standing for object identity.
-/

namespace VXGI

/-- Data type of a glTF accessor (`gltf::accessor::DataType`). -/
inductive DataType where
  | i8 | u8 | i16 | u16 | u32 | f32
  deriving DecidableEq, Repr

/-- Dimensions of a glTF accessor (`gltf::accessor::Dimensions`). -/
inductive Dims where
  | scalar | vec2 | vec3 | vec4 | mat2 | mat3 | mat4
  deriving DecidableEq, Repr

/-- wgpu vertex formats produced by `gltf_accessor_to_wgpu`. -/
inductive VertexFormat where
  | uint8x2 | uint8x4 | sint8x2 | sint8x4
  | unorm8x2 | unorm8x4 | snorm8x2 | snorm8x4
  | uint16x2 | uint16x4 | sint16x2 | sint16x4
  | unorm16x2 | unorm16x4 | snorm16x2 | snorm16x4
  | float32 | float32x2 | float32x3 | float32x4
  | uint32 | uint32x2 | uint32x3 | uint32x4
  deriving DecidableEq, Repr

/-- wgpu index formats (`wgpu::IndexFormat`). -/
inductive IndexFormat where
  | uint16 | uint32
  deriving DecidableEq, Repr

/-- Byte width of an index format: `Uint16` indices are 2 bytes wide,
`Uint32` indices 4 bytes wide. -/
def IndexFormat.byteWidth : IndexFormat → Nat
  | .uint16 => 2
  | .uint32 => 4

/-- A glTF buffer view (`gltf::buffer::View`): its document index, the
index of the buffer it views, byte offset, byte length and optional
declared stride. -/
structure BufView where
  index : Nat
  bufferIndex : Nat
  offset : Nat
  length : Nat
  stride : Option Nat
  deriving DecidableEq, Repr

/-- A glTF accessor (`gltf::Accessor`): element count, data type,
dimensions, normalized flag, byte offset into its view, and the view it
reads from (absent for sparse accessors). -/
structure Accessor where
  count : Nat
  dataType : DataType
  dims : Dims
  normalized : Bool
  offset : Nat
  view : Option BufView
  deriving DecidableEq, Repr

/-- glTF attribute semantics (`gltf::Semantic`). -/
inductive Semantic where
  | positions
  | normals
  | tangents
  | colors (set : Nat)
  | texCoords (set : Nat)
  | joints (set : Nat)
  | weights (set : Nat)
  deriving DecidableEq, Repr

/-- Shader attribute slots (`shader.rs`, `enum Attribute`); `unknown`
models `Attribute::Unknown = -1`. -/
inductive Attribute where
  | positions | texCoords | normals | tangents | joints | weights | colors
  | unknown
  deriving DecidableEq, Repr

/-- The numeric value the source obtains from `Attribute as u32`:
discriminants 0..6 for the recognized slots and `(-1isize) as u32
= 4294967295` for `Unknown`. -/
def Attribute.toLocation : Attribute → Nat
  | .positions => 0
  | .texCoords => 1
  | .normals => 2
  | .tangents => 3
  | .joints => 4
  | .weights => 5
  | .colors => 6
  | .unknown => 4294967295

/-- `impl From<&gltf::Semantic> for Attribute` (gltf_loader.rs lines
149-162): only the zeroth color/texcoord/joints/weights sets are
recognized; everything else maps to the `Unknown` sentinel. -/
def attributeFromSemantic : Semantic → Attribute
  | .positions => .positions
  | .normals => .normals
  | .tangents => .tangents
  | .colors 0 => .colors
  | .texCoords 0 => .texCoords
  | .joints 0 => .joints
  | .weights 0 => .weights
  | _ => .unknown

/-- `gltf_accessor_to_wgpu` (gltf_loader.rs lines 12-82): maps
(normalized, dimensions, data type) to a wgpu vertex format, `none` for
unsupported combinations. -/
def gltfAccessorToWgpu (accessor : Accessor) : Option VertexFormat :=
  match accessor.normalized, accessor.dims, accessor.dataType with
  | false, .vec2, .u8 => some .uint8x2
  | false, .vec4, .u8 => some .uint8x4
  | false, .vec2, .i8 => some .sint8x2
  | false, .vec4, .i8 => some .sint8x4
  | true, .vec2, .u8 => some .unorm8x2
  | true, .vec4, .u8 => some .unorm8x4
  | true, .vec2, .i8 => some .snorm8x2
  | true, .vec4, .i8 => some .snorm8x4
  | false, .vec2, .u16 => some .uint16x2
  | false, .vec4, .u16 => some .uint16x4
  | false, .vec2, .i16 => some .sint16x2
  | false, .vec4, .i16 => some .sint16x4
  | true, .vec2, .u16 => some .unorm16x2
  | true, .vec4, .u16 => some .unorm16x4
  | true, .vec2, .i16 => some .snorm16x2
  | true, .vec4, .i16 => some .snorm16x4
  | _, .scalar, .f32 => some .float32
  | _, .vec2, .f32 => some .float32x2
  | _, .vec3, .f32 => some .float32x3
  | _, .vec4, .f32 => some .float32x4
  | false, .scalar, .u32 => some .uint32
  | false, .vec2, .u32 => some .uint32x2
  | false, .vec3, .u32 => some .uint32x3
  | false, .vec4, .u32 => some .uint32x4
  | _, _, _ => none

/-- `gltf_accessor_to_indexformat` (gltf_loader.rs lines 84-90): `U16`
accessors give 16-bit indices, `U32` accessors 32-bit indices, every
other data type is unsupported. -/
def gltfAccessorToIndexformat (accessor : Accessor) : Option IndexFormat :=
  match accessor.dataType with
  | .u16 => some .uint16
  | .u32 => some .uint32
  | _ => none

/-- `get_accessor_component_count` (gltf_loader.rs lines 92-102). -/
def getAccessorComponentCount (accessor : Accessor) : Nat :=
  match accessor.dims with
  | .scalar => 1
  | .vec2 => 2
  | .vec3 => 3
  | .vec4 => 4
  | .mat2 => 4
  | .mat3 => 9
  | .mat4 => 16

/-- `get_accessor_type_size` (gltf_loader.rs lines 104-113). -/
def getAccessorTypeSize (accessor : Accessor) : Nat :=
  match accessor.dataType with
  | .i8 => 1
  | .u8 => 1
  | .i16 => 2
  | .u16 => 2
  | .u32 => 4
  | .f32 => 4

/-- `get_default_array_stride` (gltf_loader.rs lines 115-117). -/
def getDefaultArrayStride (accessor : Accessor) : Nat :=
  getAccessorComponentCount accessor * getAccessorTypeSize accessor

/-- `wgpu::Extent3d`. -/
structure Extent3d where
  width : Nat
  height : Nat
  depthOrArrayLayers : Nat
  deriving DecidableEq, Repr

/-- Bit length of a machine word computed by `fuel` halving steps:
`bitLen 32 n` is `32 - n.leading_zeros()` for any `n < 2^32`, that is
`⌊log2 n⌋ + 1` for positive `n` and `0` for `n = 0`. -/
def bitLen : Nat → Nat → Nat
  | 0, _ => 0
  | _ + 1, 0 => 0
  | fuel + 1, n + 1 => bitLen fuel ((n + 1) / 2) + 1

/-- `wgpu::Extent3d::max_mips` for `TextureDimension::D3`:
`32 - max_dim.leading_zeros()` where `max_dim` is the largest of the
three u32 extents. -/
def Extent3d.maxMipsD3 (size : Extent3d) : Nat :=
  let maxDim := max (max size.width size.height) size.depthOrArrayLayers
  bitLen 32 maxDim

/-- Model of `VoxelTexture` (voxel_texture.rs lines 3-10): per-level
texture views are identified by their base mip level, a mip bind group by
the pair (read view level, write view level), a compute pipeline by its
index. -/
structure VoxelTexture where
  views : List Nat
  mipLevelCount : Nat
  pipelines : List Nat
  bindGroups : List (Nat × Nat)
  deriving DecidableEq, Repr

/-- `VoxelTexture::new` (voxel_texture.rs lines 13-131): one view per mip
level `0..mip_level_count`, and for each `i` in `0..mip_level_count-1`
one bind group binding view `i` at binding 0 (sampled read) and view
`i+1` at binding 1 (storage write), and one compute pipeline. -/
def VoxelTexture.new (size : Extent3d) : VoxelTexture :=
  let mipLevelCount := size.maxMipsD3
  let views := List.range mipLevelCount
  let bindGroups := (List.range (mipLevelCount - 1)).map
    (fun i => (views.getD i 0, views.getD (i + 1) 0))
  let pipelines := List.range (mipLevelCount - 1)
  { views, mipLevelCount, pipelines, bindGroups }

/-- Commands recorded on a `wgpu::ComputePass`. -/
inductive ComputeCmd where
  | setPipeline (idx : Nat)
  | setBindGroup (slot : Nat) (idx : Nat)
  | dispatchWorkgroups (x y z : Nat)
  deriving DecidableEq, Repr

/-- One compute pass scope (`encoder.begin_compute_pass`) and the
commands recorded inside it. -/
structure ComputePassRec where
  commands : List ComputeCmd
  deriving DecidableEq, Repr

/-- `VoxelTexture::run_generate_mipmaps` (voxel_texture.rs lines
137-150): a single compute pass; for each `i` in `0..mip_level_count-1`
set pipeline `i`, set bind group `i` at slot 0, and dispatch one
workgroup. -/
def VoxelTexture.runGenerateMipmaps (vt : VoxelTexture) : ComputePassRec :=
  { commands := (List.range (vt.mipLevelCount - 1)).flatMap
      (fun i => [.setPipeline i, .setBindGroup 0 i, .dispatchWorkgroups 1 1 1]) }

/-- `wgpu::BufferUsages` restricted to the flags this crate uses. -/
structure BufferUsages where
  vertex : Bool
  index : Bool
  uniform : Bool
  copyDst : Bool
  deriving DecidableEq, Repr

/-- `wgpu::BufferUsages::VERTEX | wgpu::BufferUsages::COPY_DST`. -/
def BufferUsages.vertexCopyDst : BufferUsages :=
  { vertex := true, index := false, uniform := false, copyDst := true }

/-- `wgpu::BufferUsages::INDEX | wgpu::BufferUsages::COPY_DST`. -/
def BufferUsages.indexCopyDst : BufferUsages :=
  { vertex := false, index := true, uniform := false, copyDst := true }

/-- A created `wgpu::Buffer`: the handle is the value of the device's
allocation counter at creation time and stands for object identity; the
record keeps the descriptor size, the usage flags and the bytes written
into it by `queue.write_buffer`. -/
structure BufferRec where
  handle : Nat
  size : Nat
  usage : BufferUsages
  contents : List Nat
  deriving DecidableEq, Repr

/-- The scene builder's buffer cache: the `HashMap<usize, wgpu::Buffer>`
keyed by view index (insertion order kept), plus the device's buffer
allocation counter. -/
structure CacheState where
  buffers : List (Nat × BufferRec)
  allocCount : Nat
  deriving DecidableEq, Repr

/-- Association-list lookup (first match), the observable behaviour of
`HashMap::get` / `contains_key` on our insertion-ordered model, which
never holds two entries with one key. -/
def alookup {κ β : Type} [BEq κ] (m : List (κ × β)) (k : κ) : Option β :=
  (m.find? (fun p => p.1 == k)).map (fun p => p.2)

/-- The size rounding of `Scene::create_buffer_if_new` (gltf_loader.rs
lines 246-249): `if size % 4 != 0 { size = (size / 4 + 1) * 4 }`. -/
def padSize4 (size0 : Nat) : Nat :=
  if size0 % 4 ≠ 0 then (size0 / 4 + 1) * 4 else size0

/-- `Scene::create_buffer_if_new` (gltf_loader.rs lines 237-264): if the
cache has no buffer for `view.index()`, round the view length up to the
next multiple of 4, create a buffer of that size and write into it the
source bytes `buffer_contents[view.buffer().index()][view.offset()..view.offset() + size]`
(the rounded size!), then insert it under the view index. An
out-of-range buffer index or byte range is a Rust panic, modelled as an
error. -/
def createBufferIfNew (bufferContents : List (List Nat)) (st : CacheState)
    (view : BufView) (usage : BufferUsages) : Except String CacheState :=
  if (alookup st.buffers view.index).isSome then .ok st
  else
    let size := padSize4 view.length
    match bufferContents.get? view.bufferIndex with
    | none => .error "source buffer index out of range"
    | some src =>
      if view.offset + size ≤ src.length then
        .ok { buffers := st.buffers ++
                [(view.index,
                  { handle := st.allocCount, size := size, usage := usage,
                    contents := (src.drop view.offset).take size })],
              allocCount := st.allocCount + 1 }
      else .error "view byte range out of bounds"

/-- `wgpu::VertexStepMode` (the source always uses `Vertex`). -/
inductive StepMode where
  | vertex | instance_
  deriving DecidableEq, Repr

/-- `wgpu::VertexAttribute`. -/
structure VertexAttributeRec where
  format : VertexFormat
  offset : Nat
  shaderLocation : Nat
  deriving DecidableEq, Repr

/-- A `VertexBufferLayoutBuilder` / built `wgpu::VertexBufferLayout`
(gltf_loader.rs lines 164-190). -/
structure VertexLayoutRec where
  arrayStride : Nat
  stepMode : StepMode
  attributes : List VertexAttributeRec
  deriving DecidableEq, Repr

/-- `ViewData` (gltf_loader.rs lines 207-211). -/
structure ViewData where
  viewIndex : Nat
  offset : Nat
  deriving DecidableEq, Repr

/-- `IndexData` (gltf_loader.rs lines 192-196). -/
structure IndexData where
  bufferId : Nat
  format : IndexFormat
  offset : Nat
  deriving DecidableEq, Repr

/-- `PrimitiveRenderData` (gltf_loader.rs lines 198-205). -/
structure PrimitiveRenderData where
  layouts : List VertexLayoutRec
  usedViews : List ViewData
  drawCount : Nat
  indexData : Option IndexData
  transformBindGroupId : Nat
  materialBindGroupId : Nat
  deriving DecidableEq, Repr

/-- A glTF primitive as the builder consumes it: its named attribute
accessors and its optional index accessor. Material factors and texture
references do not influence any verified claim and are kept opaque. -/
structure Primitive where
  attributes : List (Semantic × Accessor)
  indices : Option Accessor
  deriving DecidableEq, Repr

/-- A node of the scene graph (`gltf::Node`): document index, local
transform, optional mesh (its primitive list), children. The transform
carrier `M` is abstract: the source multiplies `cgmath::Matrix4<f32>`
values and relies on no algebraic law of that multiplication. -/
inductive GNode (M : Type) : Type where
  | mk (id : Nat) (localTransform : M) (mesh : Option (List Primitive))
       (children : List (GNode M))
  deriving Repr

/-- Document index of a node. -/
def GNode.id {M : Type} : GNode M → Nat
  | .mk i _ _ _ => i

/-- Local transform of a node. -/
def GNode.localTransform {M : Type} : GNode M → M
  | .mk _ t _ _ => t

/-- Mesh of a node. -/
def GNode.mesh {M : Type} : GNode M → Option (List Primitive)
  | .mk _ _ m _ => m

/-- Children of a node. -/
def GNode.children {M : Type} : GNode M → List (GNode M)
  | .mk _ _ _ c => c

/-- A bind group created by the scene builder: one transform group per
node, carrying the uniform buffer contents (the node's total transform),
and one material group per primitive (contents opaque). -/
inductive BindGroup (M : Type) where
  | transform (matrix : M)
  | material
  deriving DecidableEq, Repr

/-- The builder state threaded through `Scene::from_gltf`: the buffer
cache, the growing `bind_groups` vector and the growing `render_datas`
vector. -/
structure BuildState (M : Type) where
  cache : CacheState
  bindGroups : List (BindGroup M)
  renderDatas : List PrimitiveRenderData
  deriving DecidableEq, Repr

/-- Accumulator of the per-primitive attribute loop (gltf_loader.rs
lines 403-405 and 482-511): the cache plus the mutable `layouts`,
`used_views` and `draw_count` locals. -/
structure AttrAccum where
  cache : CacheState
  layouts : List VertexLayoutRec
  usedViews : List ViewData
  drawCount : Nat
  deriving DecidableEq, Repr

/-- One iteration of the attribute loop (gltf_loader.rs lines 482-511):
an accessor without a view is skipped (`continue`); otherwise its view
is resolved through the cache with vertex usage, `draw_count` is
overwritten with the accessor's element count, a single-attribute vertex
layout fragment is appended whose shader location is the numeric value
of the semantic's `Attribute`, and the (view index, accessor offset)
pair is recorded. The `.unwrap()` on `gltf_accessor_to_wgpu` is a panic
for unsupported formats, modelled as an error. -/
def processAttribute (bufferContents : List (List Nat)) (acc : AttrAccum)
    (p : Semantic × Accessor) : Except String AttrAccum :=
  match p.2.view with
  | none => .ok acc
  | some view => do
    let cache ← createBufferIfNew bufferContents acc.cache view .vertexCopyDst
    match gltfAccessorToWgpu p.2 with
    | none => .error "unsupported vertex format"
    | some format =>
      .ok { cache := cache,
            layouts := acc.layouts ++
              [{ arrayStride := view.stride.getD (getDefaultArrayStride p.2),
                 stepMode := .vertex,
                 attributes := [{ format := format, offset := 0,
                                  shaderLocation := (attributeFromSemantic p.1).toLocation }] }],
            usedViews := acc.usedViews ++
              [{ viewIndex := view.index, offset := p.2.offset }],
            drawCount := p.2.count }

/-- Processing of one primitive (gltf_loader.rs lines 402-542): build
the material bind group and push it, run the attribute loop, resolve the
optional index accessor (its `.unwrap()`ed view and the `.unwrap()`ed
index format are panics for absent views / unsupported widths, modelled
as errors; a present index accessor overwrites `draw_count` with its
element count), and push the primitive's render data. -/
def processPrimitive {M : Type} (bufferContents : List (List Nat))
    (transformBindGroupId : Nat) (st : BuildState M) (prim : Primitive) :
    Except String (BuildState M) := do
  let materialBindGroupId := st.bindGroups.length
  let bindGroups := st.bindGroups ++ [.material]
  let acc ← prim.attributes.foldlM (processAttribute bufferContents)
    { cache := st.cache, layouts := [], usedViews := [], drawCount := 0 }
  match prim.indices with
  | some accessor =>
    match accessor.view with
    | none => .error "index accessor has no view"
    | some view => do
      let cache ← createBufferIfNew bufferContents acc.cache view .indexCopyDst
      match gltfAccessorToIndexformat accessor with
      | none => .error "unsupported index format"
      | some format =>
        .ok { cache := cache, bindGroups := bindGroups,
              renderDatas := st.renderDatas ++
                [{ layouts := acc.layouts, usedViews := acc.usedViews,
                   drawCount := accessor.count,
                   indexData := some { bufferId := view.index, format := format,
                                       offset := accessor.offset },
                   transformBindGroupId := transformBindGroupId,
                   materialBindGroupId := materialBindGroupId }] }
  | none =>
    .ok { cache := acc.cache, bindGroups := bindGroups,
          renderDatas := st.renderDatas ++
            [{ layouts := acc.layouts, usedViews := acc.usedViews,
               drawCount := acc.drawCount, indexData := none,
               transformBindGroupId := transformBindGroupId,
               materialBindGroupId := materialBindGroupId }] }

/-- The work-list loop of `Scene::from_gltf` (gltf_loader.rs lines
364-543). The Rust `Vec` is a stack popped from its end; we keep the top
of the stack at the head of the list, so a pop is a head match and the
children pushed in order (the last child ends up on top) appear reversed
in front of the remaining stack. Each iteration computes
`total_transform = parent_transform * local_transform`, pushes each
child paired with it, pushes one transform bind group, and — when the
node carries a mesh — folds `processPrimitive` over its primitives. The
Rust loop always terminates because the node forest is finite; the fuel
argument bounds the iteration count and is an error only when it runs
out with work remaining. -/
def fromGltfLoop {M : Type} (mul : M → M → M) (bufferContents : List (List Nat)) :
    Nat → List (GNode M × M) → BuildState M → Except String (BuildState M)
  | _, [], st => .ok st
  | 0, _ :: _, _ => .error "out of fuel"
  | fuel + 1, (node, parentTransform) :: rest, st =>
    let totalTransform := mul parentTransform node.localTransform
    let work := (node.children.map (fun c => (c, totalTransform))).reverse ++ rest
    let transformBindGroupId := st.bindGroups.length
    let st1 : BuildState M :=
      { st with bindGroups := st.bindGroups ++ [.transform totalTransform] }
    match node.mesh with
    | none => fromGltfLoop mul bufferContents fuel work st1
    | some prims => do
      let st2 ← prims.foldlM (processPrimitive bufferContents transformBindGroupId) st1
      fromGltfLoop mul bufferContents fuel work st2

/-- `Shader` (shader.rs lines 13-17); the compiled module is opaque. -/
structure Shader where
  vsEntry : String
  fsEntry : String
  deriving DecidableEq, Repr

/-- A compiled `wgpu::RenderPipeline`: the handle is the device's
pipeline allocation counter at creation time (object identity); the
record keeps everything the descriptor takes from this crate's inputs.
`B` is the abstract type of `wgpu::BindGroupLayout` handles; color
target states are abstract `Nat` format codes. -/
structure PipelineRec (B : Type) where
  handle : Nat
  bindGroupLayouts : List B
  vertexLayouts : List VertexLayoutRec
  vsEntry : String
  fsEntry : String
  targets : List (Option Nat)
  depth : Bool
  cullBackFace : Bool
  deriving DecidableEq, Repr

/-- `PipelineData` (gltf_loader.rs lines 222-225). -/
structure PipelineData (B : Type) where
  pipelineList : List (PipelineRec B)
  bindGroupStartIndex : Nat
  deriving DecidableEq, Repr

/-- `Scene` (gltf_loader.rs lines 227-234). -/
structure Scene (M B : Type) where
  renderDatas : List PrimitiveRenderData
  pipelineLists : List (String × PipelineData B)
  buffers : List (Nat × BufferRec)
  transformBindGroupLayout : B
  materialBindGroupLayout : B
  bindGroups : List (BindGroup M)
  deriving DecidableEq, Repr

/-- `Scene::from_gltf` (gltf_loader.rs lines 266-553): seed the work
list with the scene's root nodes paired with the identity transform `e`
(the roots are collected in order into the stack, so the head-as-top
model starts from the reversed list), run the loop, and assemble the
scene. The two bind group layouts the source creates on the device are
passed in as the abstract handles `tl` and `ml`. -/
def fromGltf {M B : Type} (mul : M → M → M) (e : M)
    (bufferContents : List (List Nat)) (sceneNodes : List (GNode M))
    (tl ml : B) (fuel : Nat) : Except String (Scene M B) := do
  let st ← fromGltfLoop mul bufferContents fuel
    ((sceneNodes.map (fun n => (n, e))).reverse)
    { cache := { buffers := [], allocCount := 0 }, bindGroups := [], renderDatas := [] }
  .ok { renderDatas := st.renderDatas, pipelineLists := [],
        buffers := st.cache.buffers, transformBindGroupLayout := tl,
        materialBindGroupLayout := ml, bindGroups := st.bindGroups }

/-- `Scene::generate_pipeline` (gltf_loader.rs lines 555-640): one
pipeline per render data in list order, each laid out over
`bind_group_layouts ++ [transform_layout, material_layout]` with that
render data's vertex layouts; the list is stored under the pass name
with `bind_group_start_index = bind_group_layouts.len()`, replacing any
prior entry of that name (`HashMap::insert`). `device` is the pipeline
allocation counter; the updated counter is returned with the scene. -/
def Scene.generatePipeline {M B : Type} (sc : Scene M B) (device : Nat)
    (shader : Shader) (name : String) (bindGroupLayouts : List B)
    (targets : List (Option Nat)) (depth cullBackFace : Bool) :
    Scene M B × Nat :=
  let pipelines := sc.renderDatas.enum.map (fun p =>
    { handle := device + p.1,
      bindGroupLayouts :=
        bindGroupLayouts ++ [sc.transformBindGroupLayout, sc.materialBindGroupLayout],
      vertexLayouts := p.2.layouts,
      vsEntry := shader.vsEntry, fsEntry := shader.fsEntry,
      targets := targets, depth := depth, cullBackFace := cullBackFace })
  ({ sc with pipelineLists :=
      (name, { pipelineList := pipelines,
               bindGroupStartIndex := bindGroupLayouts.length }) ::
        sc.pipelineLists.filter (fun q => q.1 != name) },
   device + sc.renderDatas.length)

/-- Number of nodes of a subtree. -/
def nodeSize {M : Type} : GNode M → Nat
  | .mk _ _ _ children => 1 + (children.attach.map (fun c => nodeSize c.1)).sum
decreasing_by
  have := List.sizeOf_lt_of_mem c.2
  cases c
  simp_all
  omega

/-- Number of nodes pending in a work list. -/
def workSize {M : Type} (work : List (GNode M × M)) : Nat :=
  (work.map (fun p => nodeSize p.1)).sum

/-- The transform records a traversal must produce for one subtree,
written as the recursion the spec states: the node's total transform is
`mul parent local`, and every child is processed under that total
transform. -/
def nodeRecords {M : Type} (mul : M → M → M) (parent : M) : GNode M → List (Nat × M)
  | .mk id loc _ children =>
    (id, mul parent loc) ::
      (children.attach.map (fun c => nodeRecords mul (mul parent loc) c.1)).flatten
decreasing_by
  have := List.sizeOf_lt_of_mem c.2
  cases c
  simp_all
  omega

/-- The transform records a traversal must produce for a whole work
list. -/
def expectedRecords {M : Type} (mul : M → M → M) (work : List (GNode M × M)) :
    List (Nat × M) :=
  (work.map (fun p => nodeRecords mul p.2 p.1)).flatten

/-- The transform computation of the `Scene::from_gltf` work-list loop
(gltf_loader.rs lines 364-372), projected onto the `(node, transform)`
pairs it produces: pop the top of the stack, set
`total_transform = parent_transform * local_transform`, record it (this
is the value written into the node's transform bind group), and push
each child paired with `total_transform` (last child on top). Bind-group
and primitive processing never read or write these transforms, so the
projection computes exactly the per-node transforms of `from_gltf`. -/
def sceneTransforms {M : Type} (mul : M → M → M) :
    Nat → List (GNode M × M) → List (Nat × M)
  | 0, _ => []
  | _ + 1, [] => []
  | fuel + 1, (node, parentTransform) :: rest =>
    let totalTransform := mul parentTransform node.localTransform
    (node.id, totalTransform) ::
      sceneTransforms mul fuel
        ((node.children.map (fun c => (c, totalTransform))).reverse ++ rest)

/-- A work-list traversal with an arbitrary selection strategy: at each
step `pick` chooses which pending `(node, inherited_transform)` pair to
process and returns it with the remaining work; the chosen node's total
transform is `mul parent local` and its children join the work list
under that transform. Every valid traversal order of the node forest —
the source's LIFO order included — is `buildTransforms` for some sound
`pick`. -/
def buildTransforms {M : Type} (mul : M → M → M)
    (pick : List (GNode M × M) → Option ((GNode M × M) × List (GNode M × M))) :
    Nat → List (GNode M × M) → List (Nat × M)
  | 0, _ => []
  | fuel + 1, work =>
    match pick work with
    | none => []
    | some ((node, parentTransform), rest) =>
      let totalTransform := mul parentTransform node.localTransform
      (node.id, totalTransform) ::
        buildTransforms mul pick fuel
          (node.children.map (fun c => (c, totalTransform)) ++ rest)

/-- The selection strategy that always processes the head of the work
list; it witnesses that `buildTransforms`'s hypotheses are satisfiable. -/
def pickHead {M : Type} (work : List (GNode M × M)) :
    Option ((GNode M × M) × List (GNode M × M)) :=
  match work with
  | [] => none
  | x :: rest => some (x, rest)

/-- The element counts of the attribute accessors that resolve to a view,
in attribute order; the attribute loop leaves `draw_count` equal to the
last of these (or its initial value when none resolves). -/
def resolvedCounts (attrs : List (Semantic × Accessor)) : List Nat :=
  attrs.filterMap (fun p => p.2.view.map (fun _ => p.2.count))

/-- The bind-group-index invariant of a builder state: every emitted
render data holds a transform bind group index strictly below its
material bind group index, which is strictly below the bind group table
length. -/
def GoodState {M : Type} (st : BuildState M) : Prop :=
  ∀ r ∈ st.renderDatas,
    r.transformBindGroupId < r.materialBindGroupId ∧
    r.materialBindGroupId < st.bindGroups.length

/-- Example node forest: a root with two leaf children, no meshes;
transforms over `Nat` with multiplication. -/
def exTree : GNode Nat :=
  .mk 0 2 none [.mk 1 3 none [], .mk 2 5 none []]

/-- Example decoded buffer bytes: one buffer of four bytes. -/
def exBytes : List (List Nat) := [[10, 20, 30, 40]]

/-- Example view of length 4 (already 4-byte aligned). -/
def exView : BufView :=
  { index := 0, bufferIndex := 0, offset := 0, length := 4, stride := none }

/-- Example view whose length 2 is not a multiple of 4; it shares its
index with `exView`. -/
def exShortView : BufView :=
  { index := 0, bufferIndex := 0, offset := 0, length := 2, stride := none }

/-- Example decoded buffer bytes for primitives: one buffer of 36 zero
bytes. -/
def exBytes36 : List (List Nat) := [List.replicate 36 0]

/-- Example position accessor: 3 × `Float32x3` over view 0. -/
def exPosAccessor : Accessor :=
  { count := 3, dataType := .f32, dims := .vec3, normalized := false, offset := 0,
    view := some { index := 0, bufferIndex := 0, offset := 0, length := 36, stride := none } }

/-- Example second-set texcoord accessor (an unrecognized semantic will
refer to it): 3 × `Float32x2` over view 1. -/
def exTexAccessor : Accessor :=
  { count := 3, dataType := .f32, dims := .vec2, normalized := false, offset := 0,
    view := some { index := 1, bufferIndex := 0, offset := 0, length := 24, stride := none } }

/-- Example 16-bit index accessor: 6 × `U16` over view 2. -/
def exIndexAccessor : Accessor :=
  { count := 6, dataType := .u16, dims := .scalar, normalized := false, offset := 0,
    view := some { index := 2, bufferIndex := 0, offset := 0, length := 12, stride := none } }

/-- Example primitive: one position stream, no indices. -/
def exPrimNoIdx : Primitive :=
  { attributes := [(.positions, exPosAccessor)], indices := none }

/-- Example primitive: one position stream and a 16-bit index stream. -/
def exPrimIdx : Primitive :=
  { attributes := [(.positions, exPosAccessor)], indices := some exIndexAccessor }

/-- Example primitive carrying an attribute with the unrecognized
semantic `TexCoords(1)` next to a position stream. -/
def exPrimUnknown : Primitive :=
  { attributes := [(.positions, exPosAccessor), (.texCoords 1, exTexAccessor)],
    indices := none }

/-- Example primitive with no attributes and no indices. -/
def exEmptyPrim : Primitive := { attributes := [], indices := none }

/-- Example scene root: a single node whose mesh holds only the empty
primitive. -/
def exEmptyPrimNode : GNode Nat := .mk 0 1 (some [exEmptyPrim]) []

/-- Example initial builder state. -/
def exInitState : BuildState Nat :=
  { cache := { buffers := [], allocCount := 0 }, bindGroups := [], renderDatas := [] }

/-- Example render data for pipeline-registry tests. -/
def exRecord : PrimitiveRenderData :=
  { layouts := [], usedViews := [], drawCount := 0, indexData := none,
    transformBindGroupId := 0, materialBindGroupId := 1 }

/-- Example built scene with one render data and no pipelines. -/
def exScene : Scene Nat Nat :=
  { renderDatas := [exRecord], pipelineLists := [], buffers := [],
    transformBindGroupLayout := 0, materialBindGroupLayout := 1,
    bindGroups := [.transform 1, .material] }

theorem alookup_cons_self {κ β : Type} [BEq κ] [LawfulBEq κ] (k : κ) (b : β)
    (l : List (κ × β)) : alookup ((k, b) :: l) k = some b := by
  simp [alookup]

theorem alookup_append {κ β : Type} [BEq κ] (l₁ l₂ : List (κ × β)) (k : κ) :
    alookup (l₁ ++ l₂) k = (alookup l₁ k).or (alookup l₂ k) := by
  unfold alookup
  rw [List.find?_append]
  cases List.find? (fun p => p.1 == k) l₁ <;> simp

theorem createBufferIfNew_hit {bc : List (List Nat)} {st : CacheState} {v : BufView}
    {u : BufferUsages} (h : (alookup st.buffers v.index).isSome = true) :
    createBufferIfNew bc st v u = .ok st := by
  simp [createBufferIfNew, h]

theorem createBufferIfNew_miss {bc : List (List Nat)} {st st' : CacheState}
    {v : BufView} {u : BufferUsages}
    (hmiss : alookup st.buffers v.index = none)
    (h : createBufferIfNew bc st v u = .ok st') :
    ∃ src, bc.get? v.bufferIndex = some src ∧
      v.offset + padSize4 v.length ≤ src.length ∧
      st' = { buffers := st.buffers ++
                [(v.index,
                  { handle := st.allocCount, size := padSize4 v.length, usage := u,
                    contents := (src.drop v.offset).take (padSize4 v.length) })],
              allocCount := st.allocCount + 1 } := by
  unfold createBufferIfNew at h
  rw [hmiss] at h
  simp only [Option.isSome_none, Bool.false_eq_true, if_false] at h
  split at h
  next => exact absurd h (by simp)
  next src heq =>
    split at h
    next hr => exact ⟨src, heq, hr, (Except.ok.inj h).symm⟩
    next hr => exact absurd h (by simp)

theorem createBufferIfNew_ok_lookup {bc : List (List Nat)} {st st' : CacheState}
    {v : BufView} {u : BufferUsages}
    (h : createBufferIfNew bc st v u = .ok st') :
    (alookup st'.buffers v.index).isSome = true := by
  by_cases hh : (alookup st.buffers v.index).isSome = true
  · rw [createBufferIfNew_hit hh] at h
    cases h
    exact hh
  · have hmiss : alookup st.buffers v.index = none := by
      cases hx : alookup st.buffers v.index
      · rfl
      · rw [hx] at hh; simp at hh
    obtain ⟨src, _, _, hst⟩ := createBufferIfNew_miss hmiss h
    subst hst
    simp [alookup_append, hmiss, alookup_cons_self]

/-- Claim C2: within one scene build, repeated requests to the resource
cache for one view identity return the identical GPU buffer handle: a
first successful request leaves exactly one cached buffer for the view,
and a second request for the same view returns with the state unchanged
(no new allocation, same handle under the view's index). -/
theorem c2_cache_idempotent {bc : List (List Nat)} {st st₁ : CacheState}
    {v : BufView} {u u₂ : BufferUsages}
    (h : createBufferIfNew bc st v u = .ok st₁) :
    createBufferIfNew bc st₁ v u₂ = .ok st₁ ∧
    ∃ b, alookup st₁.buffers v.index = some b := by
  have hl := createBufferIfNew_ok_lookup h
  refine ⟨createBufferIfNew_hit hl, ?_⟩
  cases hx : alookup st₁.buffers v.index
  · rw [hx] at hl; simp at hl
  · exact ⟨_, rfl⟩

/-- Witness for C2 at a concrete input: a view of length 4 requested
twice, first with vertex usage then with index usage. -/
theorem c2_cache_idempotent_witness :
    createBufferIfNew exBytes
        { buffers := [(0, { handle := 0, size := 4, usage := .vertexCopyDst,
                            contents := [10, 20, 30, 40] })], allocCount := 1 }
        exView .indexCopyDst =
      .ok { buffers := [(0, { handle := 0, size := 4, usage := .vertexCopyDst,
                              contents := [10, 20, 30, 40] })], allocCount := 1 } ∧
    ∃ b, alookup
        [(0, { handle := 0, size := 4, usage := .vertexCopyDst,
               contents := [10, 20, 30, 40] : BufferRec })] exView.index = some b :=
  c2_cache_idempotent
    (show createBufferIfNew exBytes { buffers := [], allocCount := 0 } exView
        .vertexCopyDst = _ from rfl)

/-- Claim C9: the resource cache is keyed solely by the view's index:
once a view has a cached buffer, a later request for a view with the
same index — whatever its usage flags — returns without creating or
changing anything, so the cached buffer keeps the usage flags of the
first request. -/
theorem c9_cache_keyed_by_index {bc : List (List Nat)} {st st₁ : CacheState}
    {v v' : BufView} {u₁ u₂ : BufferUsages}
    (hmiss : alookup st.buffers v.index = none)
    (h : createBufferIfNew bc st v u₁ = .ok st₁)
    (hidx : v'.index = v.index) :
    createBufferIfNew bc st₁ v' u₂ = .ok st₁ ∧
    (alookup st₁.buffers v'.index).map (fun b => b.usage) = some u₁ := by
  obtain ⟨src, hsrc, hrange, hst⟩ := createBufferIfNew_miss hmiss h
  subst hst
  have hl : alookup
      (st.buffers ++
        [(v.index,
          { handle := st.allocCount, size := padSize4 v.length, usage := u₁,
            contents := (src.drop v.offset).take (padSize4 v.length) })]) v.index =
      some { handle := st.allocCount, size := padSize4 v.length, usage := u₁,
             contents := (src.drop v.offset).take (padSize4 v.length) } := by
    rw [alookup_append, hmiss]
    simp [alookup_cons_self]
  constructor
  · exact createBufferIfNew_hit (by rw [hidx]; simp [hl])
  · rw [hidx, hl]
    rfl

/-- Witness for C9 at a concrete input: view 0 cached with vertex usage,
then re-requested through a different view value with the same index
and index usage; the stored usage stays vertex. -/
theorem c9_cache_keyed_by_index_witness :
    createBufferIfNew exBytes
        { buffers := [(0, { handle := 0, size := 4, usage := .vertexCopyDst,
                            contents := [10, 20, 30, 40] })], allocCount := 1 }
        exShortView .indexCopyDst =
      .ok { buffers := [(0, { handle := 0, size := 4, usage := .vertexCopyDst,
                              contents := [10, 20, 30, 40] })], allocCount := 1 } ∧
    (alookup
        [(0, { handle := 0, size := 4, usage := .vertexCopyDst,
               contents := [10, 20, 30, 40] : BufferRec })] exShortView.index).map
      (fun b => b.usage) = some .vertexCopyDst :=
  c9_cache_keyed_by_index (by decide)
    (show createBufferIfNew exBytes { buffers := [], allocCount := 0 } exView
        .vertexCopyDst = _ from rfl)
    (by decide)

/-- Counterexample to C8 as stated: for a view of length 2 the bytes
copied into the new allocation are the four bytes
`[10, 20, 30, 40]` — the source range `[offset, offset + rounded size)` —
and not the source range `[view.offset, view.offset + view.length)`,
which is `[10, 20]`. -/
theorem c8_counterexample :
    createBufferIfNew exBytes { buffers := [], allocCount := 0 } exShortView
        .vertexCopyDst =
      .ok { buffers := [(0, { handle := 0, size := 4, usage := .vertexCopyDst,
                              contents := [10, 20, 30, 40] })], allocCount := 1 } ∧
    ([10, 20, 30, 40] : List Nat) ≠
      ((exBytes.headD []).drop exShortView.offset).take exShortView.length := by
  exact ⟨rfl, by decide⟩

/-- Claim C8 as amended: a cache miss allocates a buffer whose size is
the view's length rounded up to the nearest 4-byte multiple, and copies
into it exactly the source byte range
`[view.offset, view.offset + size)` of the decoded buffer, where `size`
is that rounded length (equal to the view's length whenever the length
is already a multiple of 4). -/
theorem c8_amended_copy {bc : List (List Nat)} {st st₁ : CacheState}
    {v : BufView} {u : BufferUsages}
    (hmiss : alookup st.buffers v.index = none)
    (h : createBufferIfNew bc st v u = .ok st₁) :
    ∃ src b, bc.get? v.bufferIndex = some src ∧
      st₁.buffers = st.buffers ++ [(v.index, b)] ∧
      b.size % 4 = 0 ∧ v.length ≤ b.size ∧ b.size < v.length + 4 ∧
      (v.length % 4 = 0 → b.size = v.length) ∧
      b.contents = (src.drop v.offset).take b.size := by
  obtain ⟨src, hsrc, hrange, hst⟩ := createBufferIfNew_miss hmiss h
  subst hst
  refine ⟨src, _, hsrc, rfl, ?_, ?_, ?_, ?_, rfl⟩ <;>
    · dsimp only
      unfold padSize4
      split <;> omega

/-- Witness for C8's amended claim at a concrete input: the view of
length 2 gets a 4-byte allocation holding bytes `[10, 20, 30, 40]`. -/
theorem c8_amended_copy_witness :
    ∃ src b, exBytes.get? exShortView.bufferIndex = some src ∧
      ([(0, { handle := 0, size := 4, usage := .vertexCopyDst,
              contents := [10, 20, 30, 40] })] : List (Nat × BufferRec)) =
        [] ++ [(exShortView.index, b)] ∧
      b.size % 4 = 0 ∧ exShortView.length ≤ b.size ∧
      b.size < exShortView.length + 4 ∧
      (exShortView.length % 4 = 0 → b.size = exShortView.length) ∧
      b.contents = (src.drop exShortView.offset).take b.size :=
  @c8_amended_copy exBytes { buffers := [], allocCount := 0 }
    { buffers := [(0, { handle := 0, size := 4, usage := .vertexCopyDst,
                        contents := [10, 20, 30, 40] })], allocCount := 1 }
    exShortView .vertexCopyDst (by decide) rfl

/-- Claim C4: for a 512×512×512 volume, construction yields exactly 10
mip levels with one pipeline and one bind group per adjacent level pair
(level `i` read, level `i+1` written), and mip generation records,
inside a single compute pass, exactly 9 dispatches in strictly
increasing level order `i = 0..8`, each of exactly one workgroup. -/
theorem c4_voxel_mip_chain :
    (VoxelTexture.new ⟨512, 512, 512⟩).mipLevelCount = 10 ∧
    (VoxelTexture.new ⟨512, 512, 512⟩).views.length = 10 ∧
    (VoxelTexture.new ⟨512, 512, 512⟩).pipelines.length = 9 ∧
    (VoxelTexture.new ⟨512, 512, 512⟩).bindGroups =
      [(0, 1), (1, 2), (2, 3), (3, 4), (4, 5), (5, 6), (6, 7), (7, 8), (8, 9)] ∧
    (VoxelTexture.new ⟨512, 512, 512⟩).runGenerateMipmaps.commands =
      [.setPipeline 0, .setBindGroup 0 0, .dispatchWorkgroups 1 1 1,
       .setPipeline 1, .setBindGroup 0 1, .dispatchWorkgroups 1 1 1,
       .setPipeline 2, .setBindGroup 0 2, .dispatchWorkgroups 1 1 1,
       .setPipeline 3, .setBindGroup 0 3, .dispatchWorkgroups 1 1 1,
       .setPipeline 4, .setBindGroup 0 4, .dispatchWorkgroups 1 1 1,
       .setPipeline 5, .setBindGroup 0 5, .dispatchWorkgroups 1 1 1,
       .setPipeline 6, .setBindGroup 0 6, .dispatchWorkgroups 1 1 1,
       .setPipeline 7, .setBindGroup 0 7, .dispatchWorkgroups 1 1 1,
       .setPipeline 8, .setBindGroup 0 8, .dispatchWorkgroups 1 1 1] ∧
    ((VoxelTexture.new ⟨512, 512, 512⟩).runGenerateMipmaps.commands.filterMap
      (fun c => match c with
        | .dispatchWorkgroups x y z => some (x, y, z)
        | _ => none)).length = 9 := by
  decide

theorem bind_eq_ok {ε α β : Type} {x : Except ε α} {f : α → Except ε β} {b : β}
    (h : x >>= f = .ok b) : ∃ a, x = .ok a ∧ f a = .ok b := by
  cases x with
  | error e => exact Except.noConfusion h
  | ok a => exact ⟨a, rfl, h⟩

theorem processAttribute_none {bc : List (List Nat)} {a : AttrAccum}
    {p : Semantic × Accessor} (h : p.2.view = none) :
    processAttribute bc a p = .ok a := by
  unfold processAttribute
  rw [h]

theorem foldlM_processAttribute_skip {bc : List (List Nat)} :
    ∀ {attrs : List (Semantic × Accessor)}, (∀ p ∈ attrs, p.2.view = none) →
      ∀ a : AttrAccum, attrs.foldlM (processAttribute bc) a = .ok a := by
  intro attrs
  induction attrs with
  | nil => intro _ a; rfl
  | cons x t ih =>
    intro h a
    rw [List.foldlM_cons, processAttribute_none (h x (List.mem_cons_self x t))]
    show t.foldlM (processAttribute bc) a = .ok a
    exact ih (fun p hp => h p (List.mem_cons_of_mem x hp)) a

theorem processAttribute_some {bc : List (List Nat)} {a a' : AttrAccum}
    {p : Semantic × Accessor} {v : BufView} (hv : p.2.view = some v)
    (h : processAttribute bc a p = .ok a') :
    ∃ c fmt, createBufferIfNew bc a.cache v .vertexCopyDst = .ok c ∧
      gltfAccessorToWgpu p.2 = some fmt ∧
      a' = { cache := c,
             layouts := a.layouts ++
               [{ arrayStride := v.stride.getD (getDefaultArrayStride p.2),
                  stepMode := .vertex,
                  attributes := [{ format := fmt, offset := 0,
                                   shaderLocation := (attributeFromSemantic p.1).toLocation }] }],
             usedViews := a.usedViews ++ [{ viewIndex := v.index, offset := p.2.offset }],
             drawCount := p.2.count } := by
  unfold processAttribute at h
  rw [hv] at h
  obtain ⟨c, hc, h₂⟩ := bind_eq_ok h
  cases hf : gltfAccessorToWgpu p.2 with
  | none => rw [hf] at h₂; exact Except.noConfusion h₂
  | some fmt =>
    rw [hf] at h₂
    exact ⟨c, fmt, hc, rfl, (Except.ok.inj h₂).symm⟩

theorem foldlM_processAttribute_drawCount {bc : List (List Nat)} :
    ∀ (attrs : List (Semantic × Accessor)) (a a' : AttrAccum),
      attrs.foldlM (processAttribute bc) a = .ok a' →
      a'.drawCount = (resolvedCounts attrs).getLastD a.drawCount := by
  intro attrs
  induction attrs with
  | nil =>
    intro a a' h
    cases Except.ok.inj h
    simp [resolvedCounts]
  | cons x t ih =>
    intro a a' h
    rw [List.foldlM_cons] at h
    obtain ⟨a₁, h₁, h₂⟩ := bind_eq_ok h
    cases hv : x.2.view with
    | none =>
      rw [processAttribute_none hv] at h₁
      cases Except.ok.inj h₁
      rw [show resolvedCounts (x :: t) = resolvedCounts t by
        simp [resolvedCounts, List.filterMap_cons, hv]]
      exact ih a a' h₂
    | some v =>
      obtain ⟨c, fmt, hc, hf, ha₁⟩ := processAttribute_some hv h₁
      subst ha₁
      rw [show resolvedCounts (x :: t) = x.2.count :: resolvedCounts t by
        simp [resolvedCounts, List.filterMap_cons, hv]]
      rw [List.getLastD_cons]
      exact ih _ a' h₂

theorem getLastD_eq_of_all :
    ∀ (l : List Nat) (N d : Nat), (∀ x ∈ l, x = N) → l ≠ [] → l.getLastD d = N := by
  intro l
  induction l with
  | nil => intro N d _ hne; exact absurd rfl hne
  | cons c t ih =>
    intro N d h _
    rw [List.getLastD_cons]
    cases t with
    | nil => exact h c (by simp)
    | cons y u =>
      exact ih N c (fun x hx => h x (List.mem_cons_of_mem c hx)) (by simp)

theorem processPrimitive_ok_shape {M : Type} {bc : List (List Nat)} {tid : Nat}
    {st st' : BuildState M} {prim : Primitive}
    (h : processPrimitive bc tid st prim = .ok st') :
    ∃ acc, prim.attributes.foldlM (processAttribute bc)
        { cache := st.cache, layouts := [], usedViews := [], drawCount := 0 } = .ok acc ∧
      st'.bindGroups = st.bindGroups ++ [.material] ∧
      ∃ r, st'.renderDatas = st.renderDatas ++ [r] ∧
        r.transformBindGroupId = tid ∧
        r.materialBindGroupId = st.bindGroups.length ∧
        r.layouts = acc.layouts ∧ r.usedViews = acc.usedViews ∧
        ((prim.indices = none ∧ r.drawCount = acc.drawCount ∧ r.indexData = none) ∨
          (∃ ia v fmt, prim.indices = some ia ∧ ia.view = some v ∧
            gltfAccessorToIndexformat ia = some fmt ∧ r.drawCount = ia.count ∧
            r.indexData = some { bufferId := v.index, format := fmt,
                                 offset := ia.offset })) := by
  unfold processPrimitive at h
  obtain ⟨acc, hacc, h₂⟩ := bind_eq_ok h
  refine ⟨acc, hacc, ?_⟩
  split at h₂
  next ia heq =>
    split at h₂
    next hv => exact Except.noConfusion h₂
    next v hv =>
      obtain ⟨c, hc, h₃⟩ := bind_eq_ok h₂
      split at h₃
      next hf => exact Except.noConfusion h₃
      next fmt hf =>
        cases Except.ok.inj h₃
        exact ⟨rfl, _, rfl, rfl, rfl, rfl, rfl,
          Or.inr ⟨ia, v, fmt, heq, hv, hf, rfl, rfl⟩⟩
  next heq =>
    cases Except.ok.inj h₂
    exact ⟨rfl, _, rfl, rfl, rfl, rfl, rfl, Or.inl ⟨heq, rfl, rfl⟩⟩

/-- Counterexample to C6 as stated: building a scene whose only node
carries a mesh with a primitive that has zero attribute streams does
NOT fail — `from_gltf` returns a complete `Scene` containing a draw
record for that primitive with `draw_count = 0`; no load error of any
kind is raised. -/
theorem c6_counterexample :
    fromGltf Nat.mul 1 [] [exEmptyPrimNode] 0 1 2 =
      .ok { renderDatas := [{ layouts := [], usedViews := [], drawCount := 0,
                              indexData := none, transformBindGroupId := 0,
                              materialBindGroupId := 1 }],
            pipelineLists := [], buffers := [],
            transformBindGroupLayout := 0, materialBindGroupLayout := 1,
            bindGroups := [.transform 1, .material] } := by
  rfl

/-- Claim C6 as amended: processing a primitive with zero resolved
attribute streams and no index accessor succeeds (no error is raised):
it emits a draw record with `draw_count = 0`, an empty vertex layout
list, empty used views and `index_data = none`, leaving the buffer
cache untouched. -/
theorem c6_amended_zero_attributes {M : Type} {bc : List (List Nat)} {tid : Nat}
    {st : BuildState M} {prim : Primitive}
    (hattrs : ∀ p ∈ prim.attributes, p.2.view = none)
    (hidx : prim.indices = none) :
    processPrimitive bc tid st prim =
      .ok { cache := st.cache, bindGroups := st.bindGroups ++ [.material],
            renderDatas := st.renderDatas ++
              [{ layouts := [], usedViews := [], drawCount := 0, indexData := none,
                 transformBindGroupId := tid,
                 materialBindGroupId := st.bindGroups.length }] } := by
  unfold processPrimitive
  rw [foldlM_processAttribute_skip hattrs, hidx]
  rfl

/-- Witness for C6's amended claim: the primitive with no attributes and
no indices, processed in the initial builder state. -/
theorem c6_amended_zero_attributes_witness :
    processPrimitive ([] : List (List Nat)) 0 exInitState exEmptyPrim =
      .ok { cache := exInitState.cache,
            bindGroups := exInitState.bindGroups ++ [.material],
            renderDatas := exInitState.renderDatas ++
              [{ layouts := [], usedViews := [], drawCount := 0, indexData := none,
                 transformBindGroupId := 0,
                 materialBindGroupId := exInitState.bindGroups.length }] } :=
  c6_amended_zero_attributes (by intro p hp; simp [exEmptyPrim] at hp) rfl

/-- C7, the divergence evaluated: in a primitive carrying the
unrecognized semantic `TexCoords(1)` next to a position stream, the
unrecognized attribute maps to the `Unknown` sentinel, yet it is NOT
excluded from the emitted vertex layout: the draw record holds two
layout fragments, the second with shader location
`(-1isize) as u32 = 4294967295`, and the load still succeeds. -/
theorem c7_unknown_semantic_in_layout :
    attributeFromSemantic (.texCoords 1) = .unknown ∧
    Attribute.unknown.toLocation = 4294967295 ∧
    (processPrimitive exBytes36 0 exInitState exPrimUnknown).map
        (fun st => st.renderDatas.map (fun r => r.layouts.map
          (fun l => l.attributes.map (fun a => a.shaderLocation)))) =
      .ok [[[0], [4294967295]]] :=
  ⟨rfl, rfl, by rfl⟩

/-- Claim C3: when a primitive's processing succeeds: (1) if it has a
resolved position stream, every resolved attribute stream has N
elements, and there is no index accessor, the emitted draw record has
`draw_count = N` and `index_data = none`; (2) if it has an index
accessor of M elements, the record has `draw_count = M` and a populated
index reference whose format is the 2-byte `Uint16` for a 16-bit
accessor and the 4-byte `Uint32` for a 32-bit accessor. -/
theorem c3_draw_count_and_index_format {M : Type} {bc : List (List Nat)} {tid : Nat}
    {st st' : BuildState M} {prim : Primitive}
    (hok : processPrimitive bc tid st prim = .ok st') :
    (∀ N a, (Semantic.positions, a) ∈ prim.attributes → a.view.isSome = true →
      (∀ p ∈ prim.attributes, p.2.view.isSome = true → p.2.count = N) →
      prim.indices = none →
      ∃ r, st'.renderDatas = st.renderDatas ++ [r] ∧
        r.drawCount = N ∧ r.indexData = none) ∧
    (∀ ia, prim.indices = some ia →
      ∃ r d, st'.renderDatas = st.renderDatas ++ [r] ∧
        r.drawCount = ia.count ∧ r.indexData = some d ∧
        (ia.dataType = .u16 → d.format = .uint16 ∧ d.format.byteWidth = 2) ∧
        (ia.dataType = .u32 → d.format = .uint32 ∧ d.format.byteWidth = 4)) := by
  obtain ⟨acc, hacc, _, r, hr, _, _, hlay, _, hcases⟩ := processPrimitive_ok_shape hok
  constructor
  · intro N a hmem hview hall hidx
    refine ⟨r, hr, ?_, ?_⟩
    · rcases hcases with ⟨_, hdc, _⟩ | ⟨ia, v, fmt, hia, _⟩
      · rw [hdc, foldlM_processAttribute_drawCount prim.attributes _ acc hacc]
        apply getLastD_eq_of_all
        · intro x hx
          obtain ⟨p, hp, hpx⟩ := List.mem_filterMap.mp hx
          cases hpv : p.2.view with
          | none => rw [hpv] at hpx; exact Option.noConfusion hpx
          | some w =>
            rw [hpv] at hpx
            cases Option.some.inj hpx
            exact hall p hp (by rw [hpv]; rfl)
        · intro hempty
          have : a.count ∈ resolvedCounts prim.attributes := by
            apply List.mem_filterMap.mpr
            refine ⟨(Semantic.positions, a), hmem, ?_⟩
            cases hav : a.view with
            | none => rw [hav] at hview; exact Bool.noConfusion hview
            | some w => rfl
          rw [hempty] at this
          exact absurd this (List.not_mem_nil _)
      · rw [hia] at hidx; exact Option.noConfusion hidx
    · rcases hcases with ⟨_, _, hni⟩ | ⟨ia, v, fmt, hia, _⟩
      · exact hni
      · rw [hia] at hidx; exact Option.noConfusion hidx
  · intro ia hidx
    rcases hcases with ⟨hni, _, _⟩ | ⟨ia', v, fmt, hia, hv, hf, hdc, hd⟩
    · rw [hidx] at hni; exact Option.noConfusion hni
    · rw [hidx] at hia
      cases Option.some.inj hia
      refine ⟨r, _, hr, hdc, hd, ?_, ?_⟩
      · intro hu16
        have : gltfAccessorToIndexformat ia = some .uint16 := by
          unfold gltfAccessorToIndexformat
          rw [hu16]
        rw [this] at hf
        cases Option.some.inj hf
        exact ⟨rfl, rfl⟩
      · intro hu32
        have : gltfAccessorToIndexformat ia = some .uint32 := by
          unfold gltfAccessorToIndexformat
          rw [hu32]
        rw [this] at hf
        cases Option.some.inj hf
        exact ⟨rfl, rfl⟩

/-- Witness for C3: a primitive with a 3-element position stream and no
indices yields `draw_count = 3` with no index data; a primitive with a
6-element 16-bit index accessor yields `draw_count = 6` and a `Uint16`
(2-byte) index reference. -/
theorem c3_draw_count_and_index_format_witness :
    (∃ r, [({ layouts := [{ arrayStride := 12, stepMode := .vertex,
                            attributes := [{ format := .float32x3, offset := 0,
                                             shaderLocation := 0 }] }],
              usedViews := [{ viewIndex := 0, offset := 0 }], drawCount := 3,
              indexData := none, transformBindGroupId := 0,
              materialBindGroupId := 0 } : PrimitiveRenderData)] =
        exInitState.renderDatas ++ [r] ∧ r.drawCount = 3 ∧ r.indexData = none) ∧
    (∃ r d, [({ layouts := [{ arrayStride := 12, stepMode := .vertex,
                              attributes := [{ format := .float32x3, offset := 0,
                                               shaderLocation := 0 }] }],
                usedViews := [{ viewIndex := 0, offset := 0 }], drawCount := 6,
                indexData := some { bufferId := 2, format := .uint16, offset := 0 },
                transformBindGroupId := 0,
                materialBindGroupId := 0 } : PrimitiveRenderData)] =
        exInitState.renderDatas ++ [r] ∧ r.drawCount = 6 ∧ r.indexData = some d ∧
        (exIndexAccessor.dataType = .u16 → d.format = .uint16 ∧ d.format.byteWidth = 2) ∧
        (exIndexAccessor.dataType = .u32 → d.format = .uint32 ∧ d.format.byteWidth = 4)) := by
  constructor
  · exact (c3_draw_count_and_index_format
      (show processPrimitive exBytes36 0 exInitState exPrimNoIdx = .ok _
        from rfl)).1 3 exPosAccessor (by decide) (by decide) (by decide) rfl
  · exact (c3_draw_count_and_index_format
      (show processPrimitive exBytes36 0 exInitState exPrimIdx = .ok _
        from rfl)).2 exIndexAccessor rfl

theorem processPrimitive_good {M : Type} {bc : List (List Nat)} {tid : Nat}
    {st st' : BuildState M} {prim : Primitive}
    (hok : processPrimitive bc tid st prim = .ok st')
    (hg : GoodState st) (htid : tid < st.bindGroups.length) :
    GoodState st' ∧ st.bindGroups.length ≤ st'.bindGroups.length := by
  obtain ⟨acc, hacc, hbg, r, hr, htidr, hmid, _, _, _⟩ := processPrimitive_ok_shape hok
  have hlen : st'.bindGroups.length = st.bindGroups.length + 1 := by
    rw [hbg]; simp
  constructor
  · intro x hx
    rw [hr] at hx
    rcases List.mem_append.mp hx with hx | hx
    · obtain ⟨h1, h2⟩ := hg x hx
      exact ⟨h1, by omega⟩
    · have hxr : x = r := by simpa using hx
      subst hxr
      rw [htidr, hmid]
      exact ⟨htid, by omega⟩
  · omega

theorem foldlM_processPrimitive_good {M : Type} {bc : List (List Nat)} {tid : Nat} :
    ∀ (prims : List Primitive) (st st' : BuildState M),
      prims.foldlM (processPrimitive bc tid) st = .ok st' →
      GoodState st → tid < st.bindGroups.length →
      GoodState st' ∧ st.bindGroups.length ≤ st'.bindGroups.length := by
  intro prims
  induction prims with
  | nil =>
    intro st st' h hg _
    cases Except.ok.inj h
    exact ⟨hg, Nat.le_refl _⟩
  | cons p t ih =>
    intro st st' h hg htid
    rw [List.foldlM_cons] at h
    obtain ⟨st₁, h₁, h₂⟩ := bind_eq_ok h
    obtain ⟨hg₁, hle₁⟩ := processPrimitive_good h₁ hg htid
    obtain ⟨hg₂, hle₂⟩ := ih st₁ st' h₂ hg₁ (Nat.lt_of_lt_of_le htid hle₁)
    exact ⟨hg₂, Nat.le_trans hle₁ hle₂⟩

theorem fromGltfLoop_good {M : Type} {mul : M → M → M} {bc : List (List Nat)} :
    ∀ (fuel : Nat) (work : List (GNode M × M)) (st st' : BuildState M),
      fromGltfLoop mul bc fuel work st = .ok st' → GoodState st → GoodState st' := by
  intro fuel
  induction fuel with
  | zero =>
    intro work st st' h hg
    cases work with
    | nil => cases Except.ok.inj h; exact hg
    | cons x t => exact Except.noConfusion h
  | succ n ih =>
    intro work st st' h hg
    cases work with
    | nil => cases Except.ok.inj h; exact hg
    | cons x t =>
      obtain ⟨node, parent⟩ := x
      unfold fromGltfLoop at h
      have hg1 : GoodState
          { st with bindGroups :=
              st.bindGroups ++ [.transform (mul parent node.localTransform)] } := by
        intro r hr
        obtain ⟨h1, h2⟩ := hg r hr
        refine ⟨h1, ?_⟩
        simp only [List.length_append, List.length_cons, List.length_nil]
        omega
      cases hm : node.mesh with
      | none =>
        rw [hm] at h
        exact ih _ _ _ h hg1
      | some prims =>
        rw [hm] at h
        obtain ⟨st₂, h₂, h₃⟩ := bind_eq_ok h
        obtain ⟨hg₂, _⟩ := foldlM_processPrimitive_good prims _ st₂ h₂ hg1
          (by simp only [List.length_append, List.length_cons, List.length_nil]; omega)
        exact ih _ _ _ h₃ hg₂

/-- Claim C10: in every built scene, each draw record's transform bind
group id is strictly below its material bind group id, which is strictly
below the length of the scene's bind group table, so draw-time lookup of
both groups is always in range. -/
theorem c10_bind_group_ids_in_range {M B : Type} {mul : M → M → M} {e : M}
    {bc : List (List Nat)} {nodes : List (GNode M)} {tl ml : B} {fuel : Nat}
    {sc : Scene M B} (h : fromGltf mul e bc nodes tl ml fuel = .ok sc) :
    ∀ r ∈ sc.renderDatas,
      r.transformBindGroupId < r.materialBindGroupId ∧
      r.materialBindGroupId < sc.bindGroups.length := by
  unfold fromGltf at h
  obtain ⟨st, hst, h2⟩ := bind_eq_ok h
  cases Except.ok.inj h2
  intro r hr
  exact fromGltfLoop_good fuel _ _ st hst (fun x hx => absurd hx (List.not_mem_nil x)) r hr

/-- Witness for C10: the one-node scene with one (empty) primitive: the
draw record holds transform id 0 and material id 1 against a bind group
table of length 2. -/
theorem c10_bind_group_ids_in_range_witness :
    ({ layouts := [], usedViews := [], drawCount := 0, indexData := none,
       transformBindGroupId := 0,
       materialBindGroupId := 1 } : PrimitiveRenderData).transformBindGroupId <
      ({ layouts := [], usedViews := [], drawCount := 0, indexData := none,
         transformBindGroupId := 0,
         materialBindGroupId := 1 } : PrimitiveRenderData).materialBindGroupId ∧
    ({ layouts := [], usedViews := [], drawCount := 0, indexData := none,
       transformBindGroupId := 0,
       materialBindGroupId := 1 } : PrimitiveRenderData).materialBindGroupId <
      ([BindGroup.transform 1, BindGroup.material] : List (BindGroup Nat)).length :=
  c10_bind_group_ids_in_range
    (show fromGltf Nat.mul 1 [] [exEmptyPrimNode] 0 1 2 = .ok _ from rfl)
    { layouts := [], usedViews := [], drawCount := 0, indexData := none,
      transformBindGroupId := 0, materialBindGroupId := 1 }
    (List.mem_cons_self _ _)

theorem alookup_cons_ne {κ β : Type} [BEq κ] {k k' : κ} (h : (k' == k) = false)
    (b : β) (l : List (κ × β)) : alookup ((k', b) :: l) k = alookup l k := by
  simp only [alookup, List.find?_cons, h]

theorem get?_enum_map {α β : Type} (f : Nat × α → β) (l : List α) (i : Nat) :
    (l.enum.map f).get? i = (l.get? i).map (fun a => f (i, a)) := by
  rw [List.get?_map, List.enum_get?]
  cases l.get? i <;> rfl

/-- Claim C5: pipeline generation for a named pass compiles exactly one
pipeline per draw record, in draw-record list order, each with binding
layouts `extra ++ [transform_layout, material_layout]`, the given
shader's entry points, targets and depth/cull configuration; it stores
the list under the pass name with `start_slot = extra.length`;
registering a second pass on the same scene leaves the first untouched
and yields an independent list of equal length sharing no compiled
pipeline object; re-registering the same pass name replaces the prior
set with freshly compiled pipelines. -/
theorem c5_pipeline_registry {M B : Type} (sc : Scene M B) (device : Nat)
    (sh₁ sh₂ : Shader) (name₁ name₂ : String) (extra₁ extra₂ : List B)
    (tg₁ tg₂ : List (Option Nat)) (d₁ c₁ d₂ c₂ : Bool) (hname : name₁ ≠ name₂) :
    ∃ pd₁ pd₂ pd₃ : PipelineData B,
      alookup (sc.generatePipeline device sh₁ name₁ extra₁ tg₁ d₁ c₁).1.pipelineLists
        name₁ = some pd₁ ∧
      pd₁.bindGroupStartIndex = extra₁.length ∧
      pd₁.pipelineList.length = sc.renderDatas.length ∧
      (∀ i pl, pd₁.pipelineList.get? i = some pl →
        ∃ rd, sc.renderDatas.get? i = some rd ∧
          pl.bindGroupLayouts =
            extra₁ ++ [sc.transformBindGroupLayout, sc.materialBindGroupLayout] ∧
          pl.vertexLayouts = rd.layouts ∧
          pl.vsEntry = sh₁.vsEntry ∧ pl.fsEntry = sh₁.fsEntry ∧
          pl.targets = tg₁ ∧ pl.depth = d₁ ∧ pl.cullBackFace = c₁ ∧
          pl.handle = device + i) ∧
      (let r₁ := sc.generatePipeline device sh₁ name₁ extra₁ tg₁ d₁ c₁
       let r₂ := r₁.1.generatePipeline r₁.2 sh₂ name₂ extra₂ tg₂ d₂ c₂
       alookup r₂.1.pipelineLists name₁ = some pd₁ ∧
       alookup r₂.1.pipelineLists name₂ = some pd₂ ∧
       pd₂.bindGroupStartIndex = extra₂.length ∧
       pd₂.pipelineList.length = pd₁.pipelineList.length ∧
       (∀ p ∈ pd₁.pipelineList, ∀ q ∈ pd₂.pipelineList, p.handle ≠ q.handle)) ∧
      (let r₁ := sc.generatePipeline device sh₁ name₁ extra₁ tg₁ d₁ c₁
       let r₃ := r₁.1.generatePipeline r₁.2 sh₂ name₁ extra₂ tg₂ d₂ c₂
       alookup r₃.1.pipelineLists name₁ = some pd₃ ∧
       pd₃.bindGroupStartIndex = extra₂.length ∧
       pd₃.pipelineList.length = sc.renderDatas.length ∧
       (∀ i pl, pd₃.pipelineList.get? i = some pl →
         pl.handle = device + sc.renderDatas.length + i)) := by
  have hb21 : (name₂ == name₁) = false := beq_eq_false_iff_ne.mpr (Ne.symm hname)
  have hb12 : (name₁ != name₂) = true := by
    simp only [bne, beq_eq_false_iff_ne.mpr hname, Bool.not_false]
  unfold Scene.generatePipeline
  dsimp only
  refine ⟨⟨sc.renderDatas.enum.map (fun p =>
      ⟨device + p.1,
        extra₁ ++ [sc.transformBindGroupLayout, sc.materialBindGroupLayout],
        p.2.layouts, sh₁.vsEntry, sh₁.fsEntry, tg₁, d₁, c₁⟩),
      extra₁.length⟩,
    ⟨sc.renderDatas.enum.map (fun p =>
      ⟨device + sc.renderDatas.length + p.1,
        extra₂ ++ [sc.transformBindGroupLayout, sc.materialBindGroupLayout],
        p.2.layouts, sh₂.vsEntry, sh₂.fsEntry, tg₂, d₂, c₂⟩),
      extra₂.length⟩,
    ⟨sc.renderDatas.enum.map (fun p =>
      ⟨device + sc.renderDatas.length + p.1,
        extra₂ ++ [sc.transformBindGroupLayout, sc.materialBindGroupLayout],
        p.2.layouts, sh₂.vsEntry, sh₂.fsEntry, tg₂, d₂, c₂⟩),
      extra₂.length⟩,
    ?_, rfl, by simp, ?_, ⟨?_, ?_, rfl, by simp, ?_⟩, ⟨?_, rfl, by simp, ?_⟩⟩
  · exact alookup_cons_self _ _ _
  · intro i pl h
    rw [get?_enum_map] at h
    cases hrd : sc.renderDatas.get? i with
    | none => rw [hrd] at h; exact Option.noConfusion h
    | some rd =>
      rw [hrd] at h
      cases Option.some.inj h
      exact ⟨rd, rfl, rfl, rfl, rfl, rfl, rfl, rfl, rfl, rfl⟩
  · rw [alookup_cons_ne hb21, List.filter_cons_of_pos (by exact hb12)]
    exact alookup_cons_self _ _ _
  · exact alookup_cons_self _ _ _
  · intro p hp q hq
    rw [List.mem_iff_get?] at hp hq
    obtain ⟨i, hi⟩ := hp
    obtain ⟨j, hj⟩ := hq
    rw [get?_enum_map] at hi hj
    cases hrdi : sc.renderDatas.get? i with
    | none => rw [hrdi] at hi; exact Option.noConfusion hi
    | some rdi =>
      rw [hrdi] at hi
      cases Option.some.inj hi
      cases hrdj : sc.renderDatas.get? j with
      | none => rw [hrdj] at hj; exact Option.noConfusion hj
      | some rdj =>
        rw [hrdj] at hj
        cases Option.some.inj hj
        obtain ⟨hilt, _⟩ := List.get?_eq_some.mp hrdi
        dsimp only
        omega
  · exact alookup_cons_self _ _ _
  · intro i pl h
    rw [get?_enum_map] at h
    cases hrd : sc.renderDatas.get? i with
    | none => rw [hrd] at h; exact Option.noConfusion h
    | some rd =>
      rw [hrd] at h
      cases Option.some.inj h
      rfl

/-- Witness for C5: registering a "shadow" then a "main" pass on a
one-record scene, and re-registering "shadow". -/
theorem c5_pipeline_registry_witness :
    ∃ pd₁ pd₂ pd₃ : PipelineData Nat,
      alookup (exScene.generatePipeline 0 ⟨"vs", "fs"⟩ "shadow" [] [] true
          true).1.pipelineLists "shadow" = some pd₁ ∧
      pd₁.bindGroupStartIndex = ([] : List Nat).length ∧
      pd₁.pipelineList.length = exScene.renderDatas.length ∧
      (∀ i pl, pd₁.pipelineList.get? i = some pl →
        ∃ rd, exScene.renderDatas.get? i = some rd ∧
          pl.bindGroupLayouts =
            [] ++ [exScene.transformBindGroupLayout, exScene.materialBindGroupLayout] ∧
          pl.vertexLayouts = rd.layouts ∧
          pl.vsEntry = Shader.vsEntry ⟨"vs", "fs"⟩ ∧
          pl.fsEntry = Shader.fsEntry ⟨"vs", "fs"⟩ ∧
          pl.targets = [] ∧ pl.depth = true ∧ pl.cullBackFace = true ∧
          pl.handle = 0 + i) ∧
      (let r₁ := exScene.generatePipeline 0 ⟨"vs", "fs"⟩ "shadow" [] [] true true
       let r₂ := r₁.1.generatePipeline r₁.2 ⟨"vs2", "fs2"⟩ "main" [5] [some 1]
         false false
       alookup r₂.1.pipelineLists "shadow" = some pd₁ ∧
       alookup r₂.1.pipelineLists "main" = some pd₂ ∧
       pd₂.bindGroupStartIndex = [5].length ∧
       pd₂.pipelineList.length = pd₁.pipelineList.length ∧
       (∀ p ∈ pd₁.pipelineList, ∀ q ∈ pd₂.pipelineList, p.handle ≠ q.handle)) ∧
      (let r₁ := exScene.generatePipeline 0 ⟨"vs", "fs"⟩ "shadow" [] [] true true
       let r₃ := r₁.1.generatePipeline r₁.2 ⟨"vs2", "fs2"⟩ "shadow" [5] [some 1]
         false false
       alookup r₃.1.pipelineLists "shadow" = some pd₃ ∧
       pd₃.bindGroupStartIndex = [5].length ∧
       pd₃.pipelineList.length = exScene.renderDatas.length ∧
       (∀ i pl, pd₃.pipelineList.get? i = some pl →
         pl.handle = 0 + exScene.renderDatas.length + i)) :=
  c5_pipeline_registry exScene 0 ⟨"vs", "fs"⟩ ⟨"vs2", "fs2"⟩ "shadow" "main"
    [] [5] [] [some 1] true true false false (by decide)

theorem perm_flatten {α : Type} {l₁ l₂ : List (List α)} (h : l₁.Perm l₂) :
    l₁.flatten.Perm l₂.flatten := by
  induction h with
  | nil => exact .refl _
  | cons x _ ih => simpa using ih.append_left x
  | swap x y l =>
    simp only [List.flatten_cons]
    rw [← List.append_assoc, ← List.append_assoc]
    exact List.perm_append_comm.append_right _
  | trans _ _ ih₁ ih₂ => exact ih₁.trans ih₂

theorem nodeRecords_mk {M : Type} (mul : M → M → M) (parent : M) (id : Nat) (loc : M)
    (mesh : Option (List Primitive)) (children : List (GNode M)) :
    nodeRecords mul parent (.mk id loc mesh children) =
      (id, mul parent loc) ::
        expectedRecords mul (children.map (fun c => (c, mul parent loc))) := by
  rw [nodeRecords]
  unfold expectedRecords
  rw [List.map_map]
  congr 1
  congr 1
  exact List.attach_map_val children _

theorem expectedRecords_cons {M : Type} (mul : M → M → M) (n : GNode M) (p : M)
    (rest : List (GNode M × M)) :
    expectedRecords mul ((n, p) :: rest) =
      nodeRecords mul p n ++ expectedRecords mul rest := by
  simp [expectedRecords]

theorem expectedRecords_append {M : Type} (mul : M → M → M)
    (l₁ l₂ : List (GNode M × M)) :
    expectedRecords mul (l₁ ++ l₂) = expectedRecords mul l₁ ++ expectedRecords mul l₂ := by
  simp [expectedRecords]

theorem expectedRecords_perm {M : Type} (mul : M → M → M)
    {l₁ l₂ : List (GNode M × M)} (h : l₁.Perm l₂) :
    (expectedRecords mul l₁).Perm (expectedRecords mul l₂) :=
  perm_flatten (h.map _)

theorem nodeSize_mk {M : Type} (id : Nat) (loc : M) (mesh : Option (List Primitive))
    (children : List (GNode M)) :
    nodeSize (.mk id loc mesh children : GNode M) = 1 + (children.map nodeSize).sum := by
  rw [nodeSize]
  congr 2
  exact List.attach_map_val children _

theorem nodeSize_pos {M : Type} (n : GNode M) : 1 ≤ nodeSize n := by
  obtain ⟨id, loc, mesh, children⟩ := n
  rw [nodeSize_mk]
  omega

theorem workSize_cons {M : Type} (x : GNode M × M) (t : List (GNode M × M)) :
    workSize (x :: t) = nodeSize x.1 + workSize t := by
  simp [workSize]

theorem workSize_append {M : Type} (l₁ l₂ : List (GNode M × M)) :
    workSize (l₁ ++ l₂) = workSize l₁ + workSize l₂ := by
  simp [workSize]

theorem workSize_map_children {M : Type} (children : List (GNode M)) (t : M) :
    workSize (children.map (fun c => (c, t))) = (children.map nodeSize).sum := by
  simp only [workSize, List.map_map]
  rfl

theorem workSize_perm {M : Type} {l₁ l₂ : List (GNode M × M)} (h : l₁.Perm l₂) :
    workSize l₁ = workSize l₂ :=
  (h.map _).sum_eq

theorem workSize_reverse {M : Type} (l : List (GNode M × M)) :
    workSize l.reverse = workSize l :=
  workSize_perm (List.reverse_perm l)

theorem sceneTransforms_perm_expected {M : Type} (mul : M → M → M) :
    ∀ (fuel : Nat) (work : List (GNode M × M)), workSize work ≤ fuel →
      (sceneTransforms mul fuel work).Perm (expectedRecords mul work) := by
  intro fuel
  induction fuel with
  | zero =>
    intro work h
    cases work with
    | nil => exact .refl _
    | cons x t =>
      exfalso
      have h1 := nodeSize_pos x.1
      have h2 := workSize_cons x t
      omega
  | succ n ih =>
    intro work h
    cases work with
    | nil => exact .refl _
    | cons x t =>
      obtain ⟨node, parent⟩ := x
      obtain ⟨id, loc, mesh, children⟩ := node
      have hws := workSize_cons ((GNode.mk id loc mesh children : GNode M), parent) t
      rw [nodeSize_mk] at hws
      have hsize : workSize
          ((children.map (fun c => (c, mul parent loc))).reverse ++ t) ≤ n := by
        rw [workSize_append, workSize_reverse, workSize_map_children]
        omega
      have hperm := ih _ hsize
      refine List.Perm.trans (List.Perm.cons (id, mul parent loc) hperm) ?_
      rw [expectedRecords_cons, nodeRecords_mk, List.cons_append]
      refine List.Perm.cons _ ?_
      rw [expectedRecords_append]
      exact (expectedRecords_perm mul
        (List.reverse_perm (children.map (fun c => (c, mul parent loc))))).append_right _

theorem buildTransforms_perm_expected {M : Type} (mul : M → M → M)
    (pick : List (GNode M × M) → Option ((GNode M × M) × List (GNode M × M)))
    (hsome : ∀ work x rest, pick work = some (x, rest) → (x :: rest).Perm work)
    (hnone : ∀ work, pick work = none → work = []) :
    ∀ (fuel : Nat) (work : List (GNode M × M)), workSize work ≤ fuel →
      (buildTransforms mul pick fuel work).Perm (expectedRecords mul work) := by
  intro fuel
  induction fuel with
  | zero =>
    intro work h
    cases work with
    | nil => exact .refl _
    | cons x t =>
      exfalso
      have h1 := nodeSize_pos x.1
      have h2 := workSize_cons x t
      omega
  | succ n ih =>
    intro work h
    cases hp : pick work with
    | none =>
      rw [buildTransforms, hp, hnone _ hp]
      exact .refl _
    | some pr =>
      obtain ⟨⟨node, parent⟩, rest⟩ := pr
      obtain ⟨id, loc, mesh, children⟩ := node
      have hperm0 := hsome _ _ _ hp
      have hsz := workSize_perm hperm0
      have hws := workSize_cons ((GNode.mk id loc mesh children : GNode M), parent) rest
      rw [nodeSize_mk] at hws
      have hsize : workSize
          (children.map (fun c => (c, mul parent loc)) ++ rest) ≤ n := by
        rw [workSize_append, workSize_map_children]
        omega
      rw [buildTransforms, hp]
      refine List.Perm.trans (List.Perm.cons (id, mul parent loc) (ih _ hsize)) ?_
      refine List.Perm.trans ?_ (expectedRecords_perm mul hperm0)
      rw [expectedRecords_cons, nodeRecords_mk, List.cons_append]
      refine List.Perm.cons _ ?_
      rw [expectedRecords_append]
      exact .refl _

theorem pickHead_some {M : Type} :
    ∀ (work : List (GNode M × M)) x rest, pickHead work = some (x, rest) →
      (x :: rest).Perm work := by
  intro work x rest h
  cases work with
  | nil => exact Option.noConfusion h
  | cons y t =>
    obtain ⟨h1, h2⟩ := Prod.mk.inj (Option.some.inj h)
    subst h1
    subst h2
    exact .refl _

theorem pickHead_none {M : Type} :
    ∀ work : List (GNode M × M), pickHead work = none → work = [] := by
  intro work h
  cases work with
  | nil => rfl
  | cons y t => exact Option.noConfusion h

/-- Claim C1: for every node reached by the work-list traversal, the
transform recorded for it (the one its binding group is built from) is
the parent's accumulated transform multiplied by the node's local
transform, and each child is pushed with that accumulated transform —
this is what `expectedRecords`, the recursion
`total = mul parent local` pushed down to the children, describes; the
source's LIFO traversal (`sceneTransforms`) and every other valid
traversal order (`buildTransforms` with any sound selection strategy)
produce exactly those per-node transforms, so the final transforms
agree across traversal orders. -/
theorem c1_traversal_transforms {M : Type} (mul : M → M → M) (e : M)
    (roots : List (GNode M)) (fuel₁ fuel₂ : Nat)
    (pick : List (GNode M × M) → Option ((GNode M × M) × List (GNode M × M)))
    (hsome : ∀ work x rest, pick work = some (x, rest) → (x :: rest).Perm work)
    (hnone : ∀ work, pick work = none → work = [])
    (hfuel₁ : workSize (roots.map (fun n => (n, e))) ≤ fuel₁)
    (hfuel₂ : workSize (roots.map (fun n => (n, e))) ≤ fuel₂) :
    (sceneTransforms mul fuel₁ ((roots.map (fun n => (n, e))).reverse)).Perm
      (expectedRecords mul (roots.map (fun n => (n, e)))) ∧
    (buildTransforms mul pick fuel₂ ((roots.map (fun n => (n, e))).reverse)).Perm
      (expectedRecords mul (roots.map (fun n => (n, e)))) ∧
    (sceneTransforms mul fuel₁ ((roots.map (fun n => (n, e))).reverse)).Perm
      (buildTransforms mul pick fuel₂ ((roots.map (fun n => (n, e))).reverse)) := by
  have h₁ := sceneTransforms_perm_expected mul fuel₁
    ((roots.map (fun n => (n, e))).reverse) (by rw [workSize_reverse]; exact hfuel₁)
  have h₂ := buildTransforms_perm_expected mul pick hsome hnone fuel₂
    ((roots.map (fun n => (n, e))).reverse) (by rw [workSize_reverse]; exact hfuel₂)
  have h₁' := h₁.trans (expectedRecords_perm mul
    (List.reverse_perm (roots.map (fun n => (n, e)))))
  have h₂' := h₂.trans (expectedRecords_perm mul
    (List.reverse_perm (roots.map (fun n => (n, e)))))
  exact ⟨h₁', h₂', h₁'.trans h₂'.symm⟩

/-- Witness for C1: a three-node forest over `Nat` transforms with
multiplication, traversed LIFO and with the head-picking strategy. -/
theorem c1_traversal_transforms_witness :
    (sceneTransforms Nat.mul 3 (([exTree].map (fun n => (n, 1))).reverse)).Perm
      (expectedRecords Nat.mul ([exTree].map (fun n => (n, 1)))) ∧
    (buildTransforms Nat.mul pickHead 3 (([exTree].map (fun n => (n, 1))).reverse)).Perm
      (expectedRecords Nat.mul ([exTree].map (fun n => (n, 1)))) ∧
    (sceneTransforms Nat.mul 3 (([exTree].map (fun n => (n, 1))).reverse)).Perm
      (buildTransforms Nat.mul pickHead 3 (([exTree].map (fun n => (n, 1))).reverse)) :=
  c1_traversal_transforms Nat.mul 1 [exTree] 3 3 pickHead pickHead_some pickHead_none
    (by simp [workSize, exTree, nodeSize_mk])
    (by simp [workSize, exTree, nodeSize_mk])

end VXGI
